import Mathlib

/-!
Verification of the File-Sorter settings dialog (src/File-Sorter/settings.py).

The dialog shows six checkboxes, one per well-known user directory
(Downloads, Pictures, Videos, Documents, Music, Desktop).  Its
save_settings slot builds the list of resolved paths for the checked
boxes in declaration order, emits the settings_saved signal exactly once
with that list (an explicit empty list when nothing is checked), and
closes the window.

Paths are modelled as strings; Path.home() / name is string joining with
a "/" separator.  Signal emission is modelled explicitly: an operation
returns the list of emission events it produced, each event carrying its
list payload.
-/

/-- Joining a directory path with a child name, modelling the pathlib
expression home / name. -/
def homeJoin (home name : String) : String := home ++ "/" ++ name

/-- State of the six directory checkboxes created in
SettingsWindow.__init__ (settings.py lines 20-25), in declaration
order. -/
structure CheckboxState where
  downloads : Bool
  pictures  : Bool
  videos    : Bool
  documents : Bool
  music     : Bool
  desktop   : Bool
deriving DecidableEq, Repr

/-- The six toggles, one per well-known directory, in the order they are
declared and consulted in the source. -/
inductive Toggle where
  | downloads
  | pictures
  | videos
  | documents
  | music
  | desktop
deriving DecidableEq, Repr

/-- Declaration order of the toggles (settings.py lines 20-25 and the
order of the conditionals in save_settings, lines 47-58). -/
def Toggle.all : List Toggle :=
  [.downloads, .pictures, .videos, .documents, .music, .desktop]

/-- Well-known folder name attached to each toggle. -/
def Toggle.dirName : Toggle → String
  | .downloads => "Downloads"
  | .pictures  => "Pictures"
  | .videos    => "Videos"
  | .documents => "Documents"
  | .music     => "Music"
  | .desktop   => "Desktop"

/-- Whether a given toggle is checked in a checkbox state (the
isChecked() accessor of the corresponding QCheckBox). -/
def CheckboxState.checked (s : CheckboxState) : Toggle → Bool
  | .downloads => s.downloads
  | .pictures  => s.pictures
  | .videos    => s.videos
  | .documents => s.documents
  | .music     => s.music
  | .desktop   => s.desktop

/-- Updating one checkbox (a user click on that toggle). -/
def CheckboxState.setChecked (s : CheckboxState) : Toggle → Bool → CheckboxState
  | .downloads, b => { s with downloads := b }
  | .pictures,  b => { s with pictures := b }
  | .videos,    b => { s with videos := b }
  | .documents, b => { s with documents := b }
  | .music,     b => { s with music := b }
  | .desktop,   b => { s with desktop := b }

/-- Number of checked toggles. -/
def CheckboxState.numChecked (s : CheckboxState) : Nat :=
  s.downloads.toNat + s.pictures.toNat + s.videos.toNat
    + s.documents.toNat + s.music.toNat + s.desktop.toNat

/-- Checkbox state with nothing checked (also the initial state: each
QCheckBox is created unchecked). -/
def noneChecked : CheckboxState := ⟨false, false, false, false, false, false⟩

/-- Checkbox state with every toggle checked. -/
def allChecked : CheckboxState := ⟨true, true, true, true, true, true⟩

/-- Checkbox state with exactly Pictures and Music checked. -/
def picturesMusicChecked : CheckboxState := ⟨false, true, false, false, true, false⟩

/-- The settings window: the widget attributes set in __init__
(settings.py lines 9-41) that the verified behaviour can touch, plus a
closed flag recording whether self.close() has run. -/
structure SettingsWindow where
  title : String
  geometry : Int × Int × Int × Int
  checkboxes : CheckboxState
  closed : Bool
deriving DecidableEq, Repr

/-- Window produced by SettingsWindow.__init__: title "Settings",
geometry (300, 300, 300, 300), all checkboxes unchecked, window open. -/
def mkSettingsWindow : SettingsWindow :=
  { title := "Settings"
    geometry := (300, 300, 300, 300)
    checkboxes := noneChecked
    closed := false }

/-- The selected_dirs list built by save_settings (settings.py lines
44-58): starting from the empty list, each conditional appends the
resolved path of its checkbox when that checkbox is checked. -/
def selectedDirs (home : String) (s : CheckboxState) : List String :=
  let selected_dirs : List String := []
  let selected_dirs :=
    if s.downloads then selected_dirs ++ [homeJoin home "Downloads"] else selected_dirs
  let selected_dirs :=
    if s.pictures then selected_dirs ++ [homeJoin home "Pictures"] else selected_dirs
  let selected_dirs :=
    if s.videos then selected_dirs ++ [homeJoin home "Videos"] else selected_dirs
  let selected_dirs :=
    if s.documents then selected_dirs ++ [homeJoin home "Documents"] else selected_dirs
  let selected_dirs :=
    if s.music then selected_dirs ++ [homeJoin home "Music"] else selected_dirs
  let selected_dirs :=
    if s.desktop then selected_dirs ++ [homeJoin home "Desktop"] else selected_dirs
  selected_dirs

/-- SettingsWindow.save_settings (settings.py lines 43-65): build
selected_dirs, emit settings_saved once, either with an explicit empty
list (line 61) or with the built list (line 63), then close the window
(line 65).  The result is the window after the call together with the
list of settings_saved emission events the call produced, each event
carrying its list payload. -/
def save_settings (home : String) (w : SettingsWindow) :
    SettingsWindow × List (List String) :=
  let selected_dirs := selectedDirs home w.checkboxes
  let emissions :=
    if selected_dirs.isEmpty then [([] : List String)] else [selected_dirs]
  ({ w with closed := true }, emissions)

/-- Formalisation of the spec sentence for the commit result (written
from the spec, to be compared with selectedDirs): the well-known
resolutions of exactly the members of the checked subset S, in fixed
toggle declaration order. -/
def specEmittedList (home : String) (S : Toggle → Bool) : List String :=
  (Toggle.all.filter S).map (fun t => homeJoin home t.dirName)

/-- Recovery of a checkbox state from an emitted list: a toggle is
deemed checked exactly when its resolved path occurs in the list. -/
def recoverSelection (home : String) (l : List String) : CheckboxState :=
  ⟨decide (homeJoin home "Downloads" ∈ l),
   decide (homeJoin home "Pictures" ∈ l),
   decide (homeJoin home "Videos" ∈ l),
   decide (homeJoin home "Documents" ∈ l),
   decide (homeJoin home "Music" ∈ l),
   decide (homeJoin home "Desktop" ∈ l)⟩

/-- Resolution of a well-known folder under a possibly-unresolvable home
directory: Path.home() raises when the home directory cannot be
determined, modelled by home? = none; otherwise it joins as usual. -/
def homeJoinOpt (home? : Option String) (name : String) : Option String :=
  home?.map (fun h => homeJoin h name)

/-- One conditional of save_settings under the fallible-home model: when
the checkbox is checked, resolve the folder (propagating failure) and
append it; when it is unchecked, Path.home() is never evaluated and the
list passes through unchanged. -/
def condAppend (l : List String) (b : Bool) (home? : Option String)
    (name : String) : Option (List String) :=
  if b then (homeJoinOpt home? name).map (fun p => l ++ [p]) else some l

/-- The selected_dirs computation of save_settings under the
fallible-home model: the same six conditionals as selectedDirs, each
able to fail only when its checkbox is checked and home resolution
fails. -/
def selectedDirsOpt (home? : Option String) (s : CheckboxState) :
    Option (List String) :=
  (condAppend [] s.downloads home? "Downloads").bind fun l =>
  (condAppend l s.pictures home? "Pictures").bind fun l =>
  (condAppend l s.videos home? "Videos").bind fun l =>
  (condAppend l s.documents home? "Documents").bind fun l =>
  (condAppend l s.music home? "Music").bind fun l =>
  condAppend l s.desktop home? "Desktop"

/-- SettingsWindow.save_settings under the fallible-home model: none
when some checked toggle could not be resolved, otherwise the same
window transition and emission as save_settings. -/
def save_settingsOpt (home? : Option String) (w : SettingsWindow) :
    Option (SettingsWindow × List (List String)) :=
  (selectedDirsOpt home? w.checkboxes).map fun selected_dirs =>
    ({ w with closed := true },
     if selected_dirs.isEmpty then [([] : List String)] else [selected_dirs])

/-- Abstract filesystem contents: a partial map from path to file
contents. -/
structure FileSystem where
  contents : String → Option String

/-- SettingsWindow.save_settings with the filesystem state threaded
through.  The body of save_settings (settings.py lines 43-65) performs
no read, open or write call on any file: it only inspects checkbox
state, constructs Path values, emits a signal and closes the widget, so
the filesystem component passes through untouched. -/
def save_settingsFS (home : String) (w : SettingsWindow) (fs : FileSystem) :
    SettingsWindow × FileSystem × List (List String) :=
  let r := save_settings home w
  (r.1, fs, r.2)

/-- User interactions the open settings window reacts to: clicking a
checkbox (setting it to a given state) and clicking the Save Settings
button, which is connected to save_settings (settings.py line 40). -/
inductive UserAction where
  | setToggle : Toggle → Bool → UserAction
  | clickSave : UserAction

/-- One user event delivered to the window.  A closed window is off
screen and receives no user events, so every action is a no-op there;
an open window mutates the clicked checkbox, or runs save_settings on a
Save click.  The result carries the window after the event, the
settings_saved emissions the event produced, and the number of
save_settings invocations it caused. -/
def step (home : String) (w : SettingsWindow) (a : UserAction) :
    SettingsWindow × List (List String) × Nat :=
  if w.closed then (w, [], 0)
  else
    match a with
    | .setToggle t b =>
        ({ w with checkboxes := w.checkboxes.setChecked t b }, [], 0)
    | .clickSave =>
        let r := save_settings home w
        (r.1, r.2, 1)

/-- A whole interaction session: deliver a list of user events in order,
collecting all settings_saved emissions and counting all save_settings
invocations. -/
def run (home : String) (w : SettingsWindow) :
    List UserAction → SettingsWindow × List (List String) × Nat
  | [] => (w, [], 0)
  | a :: rest =>
      let r := step home w a
      let rr := run home r.1 rest
      (rr.1, r.2.1 ++ rr.2.1, r.2.2 + rr.2.2)

/-! Helper lemmas. -/

/-- The branch on an empty selected_dirs list (settings.py lines 60-63)
is redundant: either way a single event carrying the built list is
emitted, since in the then-branch the built list is itself empty. -/
theorem emitBranch_eq (l : List String) :
    (if l.isEmpty then [([] : List String)] else [l]) = [l] := by
  cases l <;> rfl

/-- Closed form of save_settings: the window is closed and exactly one
event carrying selectedDirs is emitted. -/
theorem save_settings_eq (home : String) (w : SettingsWindow) :
    save_settings home w =
      ({ w with closed := true }, [selectedDirs home w.checkboxes]) := by
  simp only [save_settings]
  rw [emitBranch_eq]

/-- The imperative conditional-append loop of save_settings computes the
filter-then-resolve list described by the spec. -/
theorem selectedDirs_eq (home : String) (s : CheckboxState) :
    selectedDirs home s = specEmittedList home s.checked := by
  obtain ⟨a, b, c, d, e, f⟩ := s
  cases a <;> cases b <;> cases c <;> cases d <;> cases e <;> cases f <;> rfl

/-- Joining distinct names under a common home yields distinct paths. -/
theorem homeJoin_inj (home a b : String) :
    homeJoin home a = homeJoin home b ↔ a = b := by
  constructor
  · intro h
    have hd := congrArg String.data h
    simp only [homeJoin, String.data_append] at hd
    exact String.ext (List.append_cancel_left hd)
  · intro h
    rw [h]

/-- The six well-known folder names are pairwise distinct. -/
theorem dirName_inj : ∀ t u : Toggle, t.dirName = u.dirName → t = u := by
  intro t u
  cases t <;> cases u <;> simp_all [Toggle.dirName]

/-- Every toggle occurs in the declaration-order list. -/
theorem mem_toggle_all (t : Toggle) : t ∈ Toggle.all := by
  cases t <;> simp [Toggle.all]

/-- Membership characterisation of the built list: a path occurs in
selectedDirs exactly when it is the resolution of some checked toggle. -/
theorem mem_selectedDirs (home : String) (s : CheckboxState) (p : String) :
    p ∈ selectedDirs home s ↔
      ∃ t : Toggle, s.checked t = true ∧ p = homeJoin home t.dirName := by
  rw [selectedDirs_eq]
  simp only [specEmittedList, List.mem_map, List.mem_filter]
  constructor
  · rintro ⟨t, ⟨_, ht⟩, hp⟩
    exact ⟨t, ht, hp.symm⟩
  · rintro ⟨t, ht, hp⟩
    exact ⟨t, ⟨mem_toggle_all t, ht⟩, hp.symm⟩

/-- A toggle's resolved path occurs in the built list exactly when that
toggle is checked. -/
theorem toggle_mem_selectedDirs (home : String) (s : CheckboxState) (t : Toggle) :
    (homeJoin home t.dirName ∈ selectedDirs home s) ↔ s.checked t = true := by
  rw [mem_selectedDirs]
  constructor
  · rintro ⟨u, hu, he⟩
    rw [dirName_inj t u ((homeJoin_inj home _ _).mp he)]
    exact hu
  · intro h
    exact ⟨t, h, rfl⟩

/-- Deciding membership of a toggle's resolved path recovers that
toggle's checkbox. -/
theorem decide_mem_toggle (home : String) (s : CheckboxState) (t : Toggle) :
    decide (homeJoin home t.dirName ∈ selectedDirs home s) = s.checked t := by
  have h := toggle_mem_selectedDirs home s t
  cases hc : s.checked t with
  | false =>
      rw [hc] at h
      simp only [Bool.false_eq_true, iff_false] at h
      simp [h]
  | true =>
      rw [hc] at h
      simp only [iff_true] at h
      simp [h]

/-- Length of the built list is the number of checked toggles. -/
theorem length_selectedDirs (home : String) (s : CheckboxState) :
    (selectedDirs home s).length = s.numChecked := by
  obtain ⟨a, b, c, d, e, f⟩ := s
  cases a <;> cases b <;> cases c <;> cases d <;> cases e <;> cases f <;> rfl

/-- Resolution under a common home is injective on toggles. -/
theorem resolve_injective (home : String) :
    Function.Injective (fun t : Toggle => homeJoin home t.dirName) := by
  intro t u h
  exact dirName_inj t u ((homeJoin_inj home _ _).mp h)

/-- Each step emits exactly as many events as save_settings invocations
it performs. -/
theorem step_emission_count (home : String) (w : SettingsWindow) (a : UserAction) :
    ((step home w a).2.1).length = (step home w a).2.2 := by
  unfold step
  split
  · rfl
  · cases a
    · rfl
    · simp [save_settings_eq]

/-! Claim theorems. -/

/-- C1: for every subset S of the six toggles, invoking save_settings
with exactly the toggles in S checked emits one event whose payload is
precisely the well-known-directory resolutions for the members of S, in
the fixed declaration order Downloads, Pictures, Videos, Documents,
Music, Desktop, and containing no other elements. -/
theorem commit_emits_exactly_selected_in_order
    (home : String) (w : SettingsWindow) :
    (save_settings home w).2 =
      [specEmittedList home w.checkboxes.checked] := by
  rw [save_settings_eq, selectedDirs_eq]

/-- C2: invoking save_settings with no toggles checked emits one event
carrying the explicit empty list (the emission occurs, it is not
omitted), and the window still closes. -/
theorem commit_none_checked_emits_empty_and_closes
    (home ti : String) (geo : Int × Int × Int × Int) (cl : Bool) :
    save_settings home ⟨ti, geo, noneChecked, cl⟩ =
      (⟨ti, geo, noneChecked, true⟩, [([] : List String)]) :=
  rfl

/-- C3: each invocation of save_settings emits settings_saved exactly
once, and over any user-interaction session the number of emitted events
equals the number of save_settings invocations, so no emission happens
without a commit. -/
theorem one_emission_per_commit
    (home : String) (w : SettingsWindow) (acts : List UserAction) :
    ((save_settings home w).2).length = 1 ∧
      ((run home w acts).2.1).length = (run home w acts).2.2 := by
  constructor
  · simp [save_settings_eq]
  · induction acts generalizing w with
    | nil => rfl
    | cons a rest ih =>
        simp [run, List.length_append, step_emission_count, ih]

/-- C4: the settings surface is a two-state machine: save_settings
leaves the window in the Closed state; a toggle event never changes the
Open/Closed state; every event on a Closed window is a no-op with no
emission (Closed is terminal); and on an Open window a Save click runs
save_settings, the one transition Open to Closed, with that call's
emission as its side effect. -/
theorem settings_surface_two_state_machine
    (home : String) (w : SettingsWindow) (t : Toggle) (b : Bool) :
    (save_settings home w).1.closed = true
    ∧ (step home w (.setToggle t b)).1.closed = w.closed
    ∧ (w.closed = true → ∀ a : UserAction, step home w a = (w, [], 0))
    ∧ (w.closed = false →
        step home w .clickSave =
          ((save_settings home w).1, (save_settings home w).2, 1)) := by
  refine ⟨by rw [save_settings_eq], ?_, ?_, ?_⟩
  · unfold step
    split
    · rfl
    · rfl
  · intro h a
    unfold step
    rw [if_pos h]
  · intro h
    unfold step
    rw [if_neg (by rw [h]; exact Bool.false_ne_true)]

/-- Witness for C4: on the freshly opened window a Save click performs
the Open to Closed transition with its emission, and on the closed
window every event is a no-op. -/
theorem settings_surface_two_state_machine_witness :
    step "/home/user" mkSettingsWindow .clickSave =
      ((save_settings "/home/user" mkSettingsWindow).1,
        (save_settings "/home/user" mkSettingsWindow).2, 1)
    ∧ step "/home/user" { mkSettingsWindow with closed := true } .clickSave =
        ({ mkSettingsWindow with closed := true }, [], 0) :=
  ⟨(settings_surface_two_state_machine "/home/user" mkSettingsWindow
      .downloads true).2.2.2 rfl,
   (settings_surface_two_state_machine "/home/user"
      { mkSettingsWindow with closed := true } .downloads true).2.2.1 rfl
      .clickSave⟩

/-- C5: with exactly Pictures and Music checked the emitted payload is
[home/Pictures, home/Music] in that order; with all six checked it is
the six well-known paths in declaration order Downloads, Pictures,
Videos, Documents, Music, Desktop. -/
theorem commit_scenarios_pictures_music_and_all
    (home ti : String) (geo : Int × Int × Int × Int) (cl : Bool) :
    (save_settings home ⟨ti, geo, picturesMusicChecked, cl⟩).2 =
      [[homeJoin home "Pictures", homeJoin home "Music"]]
    ∧ (save_settings home ⟨ti, geo, allChecked, cl⟩).2 =
      [[homeJoin home "Downloads", homeJoin home "Pictures",
        homeJoin home "Videos", homeJoin home "Documents",
        homeJoin home "Music", homeJoin home "Desktop"]] :=
  ⟨rfl, rfl⟩

/-- C6: every element of the emitted list is the resolution of some
checked toggle: the join of the home directory with that toggle's
well-known folder name, hence a path anchored at the home directory. -/
theorem emitted_paths_anchored_at_home
    (home : String) (s : CheckboxState) (p : String)
    (hp : p ∈ selectedDirs home s) :
    ∃ t : Toggle, s.checked t = true ∧ p = homeJoin home t.dirName ∧
      ∃ rest : String, p = home ++ rest := by
  obtain ⟨t, ht, he⟩ := (mem_selectedDirs home s p).mp hp
  refine ⟨t, ht, he, "/" ++ t.dirName, ?_⟩
  rw [he]
  simp [homeJoin, String.append_assoc]

/-- Witness for C6 at a concrete home, selection and path. -/
theorem emitted_paths_anchored_at_home_witness :
    ∃ t : Toggle, allChecked.checked t = true ∧
      homeJoin "/home/user" "Downloads" = homeJoin "/home/user" t.dirName ∧
      ∃ rest : String,
        homeJoin "/home/user" "Downloads" = "/home/user" ++ rest :=
  emitted_paths_anchored_at_home "/home/user" allChecked
    (homeJoin "/home/user" "Downloads")
    ((toggle_mem_selectedDirs "/home/user" allChecked .downloads).mpr rfl)

/-- C7: save_settings has no reachable failure branch: under the
fallible-home model, whenever the home directory resolves, the call
succeeds for every one of the 64 checkbox states and computes exactly
the save_settings result. -/
theorem save_settings_no_failure_when_home_resolvable
    (home : String) (w : SettingsWindow) :
    save_settingsOpt (some home) w = some (save_settings home w) := by
  obtain ⟨ti, geo, ⟨a, b, c, d, e, f⟩, cl⟩ := w
  cases a <;> cases b <;> cases c <;> cases d <;> cases e <;> cases f <;> rfl

/-- C8: save_settings reads and writes no files: with the filesystem
state threaded through, the filesystem comes back unchanged and the
resulting window and emissions are those of the filesystem-free
function, for every toggle combination and every filesystem. -/
theorem save_settings_leaves_filesystem_unchanged
    (home : String) (w : SettingsWindow) (fs : FileSystem) :
    (save_settingsFS home w fs).2.1 = fs
    ∧ (save_settingsFS home w fs).1 = (save_settings home w).1
    ∧ (save_settingsFS home w fs).2.2 = (save_settings home w).2 :=
  ⟨rfl, rfl, rfl⟩

/-- C9: the emitted list has no duplicate paths, its length is the
number of checked toggles, and the full selection is recovered from the
emitted list alone by recoverSelection, so the map from toggle state to
emitted list is injective. -/
theorem emitted_list_determines_selection
    (home : String) (s : CheckboxState) :
    (selectedDirs home s).Nodup
    ∧ (selectedDirs home s).length = s.numChecked
    ∧ recoverSelection home (selectedDirs home s) = s := by
  refine ⟨?_, length_selectedDirs home s, ?_⟩
  · rw [selectedDirs_eq]
    have hall : Toggle.all.Nodup := by decide
    exact (hall.filter _).map (resolve_injective home)
  · obtain ⟨a, b, c, d, e, f⟩ := s
    simp only [recoverSelection, CheckboxState.mk.injEq]
    exact ⟨decide_mem_toggle home ⟨a, b, c, d, e, f⟩ .downloads,
           decide_mem_toggle home ⟨a, b, c, d, e, f⟩ .pictures,
           decide_mem_toggle home ⟨a, b, c, d, e, f⟩ .videos,
           decide_mem_toggle home ⟨a, b, c, d, e, f⟩ .documents,
           decide_mem_toggle home ⟨a, b, c, d, e, f⟩ .music,
           decide_mem_toggle home ⟨a, b, c, d, e, f⟩ .desktop⟩

/-- C10: save_settings is deterministic and noninterferent: two windows
that agree on the six checkbox states produce, under the same home
directory, equal emissions, whatever their other attributes (title,
geometry, closed flag). -/
theorem save_settings_deterministic
    (home : String) (w1 w2 : SettingsWindow)
    (h : w1.checkboxes = w2.checkboxes) :
    (save_settings home w1).2 = (save_settings home w2).2 := by
  simp only [save_settings_eq, h]

/-- Witness for C10: two windows differing in title, geometry and closed
flag but agreeing on the checkboxes emit the same list. -/
theorem save_settings_deterministic_witness :
    (save_settings "/home/user"
        ⟨"Settings", (300, 300, 300, 300), picturesMusicChecked, false⟩).2 =
      (save_settings "/home/user"
        ⟨"Other", (0, 0, 10, 10), picturesMusicChecked, true⟩).2 :=
  save_settings_deterministic "/home/user"
    ⟨"Settings", (300, 300, 300, 300), picturesMusicChecked, false⟩
    ⟨"Other", (0, 0, 10, 10), picturesMusicChecked, true⟩ rfl
